import Mathlib

/-!
Verification development for the PCB Track backend (src/backend/main.py,
src/backend/models.py, src/backend/db.py).  The Python code is shallowly
embedded: pydantic models become structures, the SQLite tables become lists
of row structures inside a `DBState`, and each HTTP handler becomes a pure
function on `DBState` (fallible handlers return `Except ApiError`).  The
externally generated values (uuid4 ids, current timestamps) are passed as
explicit arguments.
-/

namespace PCBTrack

/-- models.py `Task`: pydantic model with three optional fields defaulting
to None. -/
structure Task where
  name : String
  designerApproved : Bool
  reviewerApproved : Bool
  required : Option Bool := none
  url : Option String := none
  comments : Option String := none
  deriving Repr, DecidableEq

/-- models.py `Subcategory`. -/
structure Subcategory where
  name : String
  designerApproved : Option Bool := none
  reviewerApproved : Option Bool := none
  tasks : List Task := []
  deriving Repr, DecidableEq

/-- models.py `Stage`: either `tasks` or `subcategories` may be present. -/
structure Stage where
  name : String
  tasks : Option (List Task) := none
  subcategories : Option (List Subcategory) := none
  deriving Repr, DecidableEq

/-- models.py `PCBBoard`: the full board payload/response model.
`isDeleted` is `Optional[bool] = False` in pydantic, hence `Option Bool`;
`passFailStatus` is `Optional[Literal["Pass","Fail"]]`, embedded as
`Option String`. -/
structure PCBBoard where
  id : String
  boardName : String
  partNumber : String
  revision : String
  project : String
  arrivedDate : String := ""
  isArrived : Bool := false
  passFailStatus : Option String := none
  isNewRevision : Bool := false
  stages : List Stage := []
  createdAt : String
  isDeleted : Option Bool := some false
  deletedAt : Option String := none
  deriving Repr, DecidableEq

/-- models.py `CreateBoardRequest`. -/
structure CreateBoardRequest where
  boardName : String
  partNumber : String
  revision : String
  project : String
  isNewRevision : Bool := false
  deriving Repr, DecidableEq

/-- models.py `ChangeLogEntry` (`userRole` is a Literal of two strings,
embedded as `String`). -/
structure ChangeLogEntry where
  id : String
  timestamp : String
  userRole : String
  userName : Option String := none
  boardId : String
  boardName : String
  revision : String
  stage : String
  task : String
  field : String
  oldValue : String
  newValue : String
  deriving Repr, DecidableEq

/-- models.py `CreateChangeLogRequest`. -/
structure CreateChangeLogRequest where
  userRole : String
  userName : Option String := none
  boardId : String
  boardName : String
  revision : String
  stage : String
  task : String
  field : String
  oldValue : String
  newValue : String
  deriving Repr, DecidableEq

/-- models.py `CreateUserRequest`. -/
structure CreateUserRequest where
  name : String
  deriving Repr, DecidableEq

/-- A subcategory entry of a stage template in main.py `STAGE_TEMPLATES`:
a name plus a list of task names. -/
structure SubcatTemplate where
  name : String
  tasks : List String
  deriving Repr, DecidableEq

/-- One entry of main.py `STAGE_TEMPLATES`: the Python dict has a `name`
key and optionally a `tasks` or a `subcategories` key; the optional keys
become `Option` fields. -/
structure StageTemplate where
  name : String
  tasks : Option (List String) := none
  subcategories : Option (List SubcatTemplate) := none
  deriving Repr, DecidableEq

/-- main.py `STAGE_TEMPLATES`, transcribed literally. -/
def STAGE_TEMPLATES : List StageTemplate :=
  [ { name := "Pre-Schematics"
    , tasks := some
        [ "Requirements Available"
        , "EQ Review (Previous revision)"
        , "Bringup notes (Previous revision)"
        , "Mechanical notes (Previous revision)"
        , "Comments 365 (Previous revision)"
        , "Block Diagram Updated"
        , "Power Tree Updated"
        , "Shielding"
        , "PDR Completed" ] }
  , { name := "Schematics"
    , tasks := some
        [ "Schematic design"
        , "Test points"
        , "GND hooks"
        , "Shielding"
        , "Parts in BOM" ] }
  , { name := "Layout"
    , tasks := some
        [ "Define Rules"
        , "Define Stackup"
        , "Get DXF"
        , "Concept Placement"
        , "First Mechanical Approval"
        , "Placement"
        , "Second Mechanical Approval"
        , "Wiring"
        , "Impedance control done?"
        , "Length matching done?"
        , "Filling and capping vias sets?"
        , "TEAR DROPS optional done?"
        , "Backdrill done?"
        , "STITCHING and shielding? (if need)"
        , "Check BOARD outline (5mil) layers"
        , "Check Assembly layer"
        , "Silk overview [name connectors(pins?), part number, serial number]"
        , "Final Mechanical Approval" ] }
  , { name := "Release"
    , tasks := some
        [ "Update Issues Excel"
        , "Issues Excel Review"
        , "Draftsman"
        , "Confluence – Main Page"
        , "Confluence – Bringup"
        , "Software fetchers doc" ] }
  , { name := "Order"
    , tasks := some
        [ "PCB Ordered"
        , "PCB Received"
        , "Assembly Ordered"
        , "Assembly Received" ] }
  , { name := "Bringup"
    , tasks := some
        [ "Bringup Started"
        , "Bringup Completed"
        , "Bringup Notes Updated" ] }
  , { name := "Validation"
    , tasks := some
        [ "Bringup Completed"
        , "Board outline"
        , "BOM components stage"
        , "Planes" ] }
  , { name := "In Production"
    , subcategories := some
        [ { name := "Mechanical"
          , tasks :=
              [ "Mechanical Integration Complete"
              , "Mechanical Testing Passed"
              , "Mechanical Sign-Off" ] }
        , { name := "Embedded"
          , tasks :=
              [ "Firmware Loaded"
              , "Embedded Testing Complete"
              , "Embedded Sign-Off" ] }
        , { name := "Software"
          , tasks :=
              [ "Software Integration Complete"
              , "Software Testing Passed"
              , "Software Sign-Off" ] }
        , { name := "System"
          , tasks :=
              [ "System Integration Complete"
              , "System Testing Passed"
              , "System Sign-Off" ] } ] } ]

/-- The fresh all-unapproved task built by main.py `build_default_stages`
for a template task name. -/
def defaultTask (t : String) : Task :=
  { name := t, designerApproved := false, reviewerApproved := false }

/-- The subcategory built by main.py `build_default_stages` for a template
subcategory (Python sets both approval flags to `False`, so the optional
pydantic fields become `some false`). -/
def defaultSubcategory (sc : SubcatTemplate) : Subcategory :=
  { name := sc.name
  , designerApproved := some false
  , reviewerApproved := some false
  , tasks := sc.tasks.map defaultTask }

/-- The stage built from one template entry: the `tasks` / `subcategories`
keys are emitted exactly when the template has them (the Python
`if "tasks" in st` / `if "subcategories" in st` guards). -/
def buildStage (st : StageTemplate) : Stage :=
  { name := st.name
  , tasks := st.tasks.map (fun ts => ts.map defaultTask)
  , subcategories := st.subcategories.map (fun scs => scs.map defaultSubcategory) }

/-- main.py `build_default_stages`. -/
def build_default_stages : List Stage :=
  STAGE_TEMPLATES.map buildStage

/-- A row of the sqlite `boards` table (db.py `init_db`).  The
`stages_json` TEXT column holds `json.dumps` of the stages, which the
readers always parse back with pydantic; serialization is a faithful
round trip, so the column is embedded structurally as the stage list. -/
structure BoardRow where
  id : String
  board_name : String
  part_number : String
  revision : String
  project : String
  is_new_revision : Nat
  arrived_date : String
  is_arrived : Nat
  pass_fail_status : Option String
  stages_json : List Stage
  created_at : String
  updated_at : String
  is_deleted : Nat
  deleted_at : Option String
  deriving Repr, DecidableEq

/-- A row of the sqlite `change_log` table (db.py `init_db`). -/
structure ChangeLogRow where
  id : String
  timestamp : String
  user_role : String
  user_name : Option String
  board_id : String
  board_name : String
  revision : String
  stage : String
  task : String
  field : String
  old_value : String
  new_value : String
  deriving Repr, DecidableEq

/-- The three sqlite tables (`boards`, `change_log`, `users`), each as the
list of its rows in insertion order. -/
structure DBState where
  boards : List BoardRow
  change_log : List ChangeLogRow
  users : List String
  deriving Repr, DecidableEq

/-- Errors raised through fastapi `HTTPException`: 404 and 400. -/
inductive ApiError where
  | notFound (detail : String)
  | badRequest (detail : String)
  deriving Repr, DecidableEq

/-- Python `bool()` of a stored INTEGER column value. -/
def pyBool (n : Nat) : Bool := n != 0

/-- Python `s or ""` on a string. -/
def pyOrEmpty (s : String) : String := if s = "" then "" else s

/-- Python `1 if b else 0`. -/
def boolToInt (b : Bool) : Nat := if b then 1 else 0

/-- Python `b or False` on an `Optional[bool]`. -/
def pyOrFalse (b : Option Bool) : Bool := b.getD false

/-- db.py `row_to_board_dict` composed with the `PCBBoard(**...)`
construction used by every board reader.  (`json.loads(stages_json) if
stages_json else []`: the stored string is `json.dumps` of a list, never
empty, so the parse branch is always taken.) -/
def row_to_board_dict (r : BoardRow) : PCBBoard :=
  { id := r.id
  , boardName := r.board_name
  , partNumber := r.part_number
  , revision := r.revision
  , project := r.project
  , isNewRevision := pyBool r.is_new_revision
  , arrivedDate := pyOrEmpty r.arrived_date
  , isArrived := pyBool r.is_arrived
  , passFailStatus := r.pass_fail_status
  , stages := r.stages_json
  , createdAt := r.created_at
  , isDeleted := some (pyBool r.is_deleted)
  , deletedAt := r.deleted_at }

/-- db.py `row_to_changelog_dict` composed with `ChangeLogEntry(**...)`. -/
def row_to_changelog_dict (r : ChangeLogRow) : ChangeLogEntry :=
  { id := r.id
  , timestamp := r.timestamp
  , userRole := r.user_role
  , userName := r.user_name
  , boardId := r.board_id
  , boardName := r.board_name
  , revision := r.revision
  , stage := r.stage
  , task := r.task
  , field := r.field
  , oldValue := r.old_value
  , newValue := r.new_value }

/-- `ORDER BY created_at DESC`: later-created rows first (string
comparison, as sqlite compares TEXT lexicographically). -/
def rowDescCreated (a b : BoardRow) : Prop := b.created_at ≤ a.created_at

instance : DecidableRel rowDescCreated :=
  fun a b => inferInstanceAs (Decidable (b.created_at ≤ a.created_at))

instance : IsTotal BoardRow rowDescCreated :=
  ⟨fun a b => le_total b.created_at a.created_at⟩

instance : IsTrans BoardRow rowDescCreated :=
  ⟨fun _ _ _ hab hbc => le_trans hbc hab⟩

/-- `ORDER BY timestamp DESC` on change-log rows. -/
def changeDescTimestamp (a b : ChangeLogRow) : Prop := b.timestamp ≤ a.timestamp

instance : DecidableRel changeDescTimestamp :=
  fun a b => inferInstanceAs (Decidable (b.timestamp ≤ a.timestamp))

instance : IsTotal ChangeLogRow changeDescTimestamp :=
  ⟨fun a b => le_total b.timestamp a.timestamp⟩

instance : IsTrans ChangeLogRow changeDescTimestamp :=
  ⟨fun _ _ _ hab hbc => le_trans hbc hab⟩

/-- main.py `list_boards` (GET /api/boards): optionally filter out
soft-deleted rows, order by `created_at` descending, convert each row. -/
def list_boards (s : DBState) (includeDeleted : Bool) : List PCBBoard :=
  let rows := if includeDeleted then s.boards
              else s.boards.filter (fun r => r.is_deleted == 0)
  (List.insertionSort rowDescCreated rows).map row_to_board_dict

/-- main.py `get_board` (GET /api/boards/id): 404 when no row matches. -/
def get_board (s : DBState) (board_id : String) : Except ApiError PCBBoard :=
  match s.boards.find? (fun r => r.id == board_id) with
  | none => .error (.notFound "Board not found")
  | some r => .ok (row_to_board_dict r)

/-- main.py `create_board` (POST /api/boards).  `gid` is the
`str(uuid4())` value and `ts` the `now_iso()` timestamp, both produced by
the environment and passed in explicitly. -/
def create_board (s : DBState) (gid ts : String) (req : CreateBoardRequest) :
    DBState × PCBBoard :=
  let board : PCBBoard :=
    { id := gid
    , boardName := req.boardName
    , partNumber := req.partNumber
    , revision := req.revision
    , project := req.project
    , arrivedDate := ""
    , isArrived := false
    , passFailStatus := none
    , isNewRevision := req.isNewRevision
    , stages := build_default_stages
    , createdAt := ts
    , isDeleted := some false
    , deletedAt := none }
  let row : BoardRow :=
    { id := gid
    , board_name := req.boardName
    , part_number := req.partNumber
    , revision := req.revision
    , project := req.project
    , is_new_revision := boolToInt req.isNewRevision
    , arrived_date := ""
    , is_arrived := 0
    , pass_fail_status := none
    , stages_json := build_default_stages
    , created_at := ts
    , updated_at := ts
    , is_deleted := 0
    , deleted_at := none }
  ({ s with boards := s.boards ++ [row] }, board)

/-- The SET clause of main.py `update_board`: every column except `id` and
`created_at` is overwritten from the payload. -/
def updateRowFromPayload (ts : String) (b : PCBBoard) (r : BoardRow) : BoardRow :=
  { r with
    board_name := b.boardName
  , part_number := b.partNumber
  , revision := b.revision
  , project := b.project
  , is_new_revision := boolToInt b.isNewRevision
  , arrived_date := pyOrEmpty b.arrivedDate
  , is_arrived := boolToInt b.isArrived
  , pass_fail_status := b.passFailStatus
  , stages_json := b.stages
  , updated_at := ts
  , is_deleted := boolToInt (pyOrFalse b.isDeleted)
  , deleted_at := b.deletedAt }

/-- The store after the UPDATE statement of `update_board` ran: every row
whose id matches is overwritten from the payload. -/
def updatedBoards (s : DBState) (ts : String) (board_id : String) (board : PCBBoard) :
    DBState :=
  { s with boards := (s.boards.map (fun r =>
      if r.id == board_id then updateRowFromPayload ts board r else r)) }

/-- main.py `update_board` (PUT /api/boards/id): 400 on payload/path id
mismatch, 404 when the row is absent, otherwise overwrite the row and
return the payload object itself (not a re-read). -/
def update_board (s : DBState) (ts : String) (board_id : String) (board : PCBBoard) :
    Except ApiError (DBState × PCBBoard) :=
  if board.id ≠ board_id then
    .error (.badRequest "Board ID mismatch")
  else
    match s.boards.find? (fun r => r.id == board_id) with
    | none => .error (.notFound "Board not found")
    | some _ => .ok (updatedBoards s ts board_id board, board)

/-- The store after the UPDATE statement of `soft_delete_board` ran. -/
def softDeletedBoards (s : DBState) (ts : String) (board_id : String) : DBState :=
  { s with boards := (s.boards.map (fun r =>
      if r.id == board_id then
        { r with is_deleted := 1, deleted_at := some ts, updated_at := ts }
      else r)) }

/-- main.py `soft_delete_board` (POST /api/boards/id/delete): set
`is_deleted=1`, `deleted_at` and `updated_at` to now, then re-select the
row and return it.  The re-select is modelled faithfully; its not-found
branch is unreachable and mirrors the original 404. -/
def soft_delete_board (s : DBState) (ts : String) (board_id : String) :
    Except ApiError (DBState × PCBBoard) :=
  match s.boards.find? (fun r => r.id == board_id) with
  | none => .error (.notFound "Board not found")
  | some _ =>
    let s2 : DBState := softDeletedBoards s ts board_id
    match s2.boards.find? (fun r => r.id == board_id) with
    | none => .error (.notFound "Board not found")
    | some r2 => .ok (s2, row_to_board_dict r2)

/-- The store after both DELETE statements of `permanent_delete_board`
ran: the board row and every change-log row referencing it are gone. -/
def hardDeletedState (s : DBState) (board_id : String) : DBState :=
  { s with
    boards := s.boards.filter (fun r => r.id != board_id)
  , change_log := s.change_log.filter (fun e => e.board_id != board_id) }

/-- main.py `permanent_delete_board` (DELETE /api/boards/id): 404 when
absent, otherwise delete the board row and every change-log row whose
`board_id` references it. -/
def permanent_delete_board (s : DBState) (board_id : String) :
    Except ApiError DBState :=
  match s.boards.find? (fun r => r.id == board_id) with
  | none => .error (.notFound "Board not found")
  | some _ => .ok (hardDeletedState s board_id)

/-- main.py `get_changelog` (GET /api/changelog): Python `if boardId:` is
truthiness, so both `None` and the empty string disable the filter. -/
def get_changelog (s : DBState) (boardId : Option String) : List ChangeLogEntry :=
  let rows :=
    match boardId with
    | some bid =>
        if bid = "" then List.insertionSort changeDescTimestamp s.change_log
        else List.insertionSort changeDescTimestamp
          (s.change_log.filter (fun e => e.board_id == bid))
    | none => List.insertionSort changeDescTimestamp s.change_log
  rows.map row_to_changelog_dict

/-- The `entry` dict built by main.py `add_changelog`. -/
def newChangeEntry (gid ts : String) (req : CreateChangeLogRequest) : ChangeLogEntry :=
  { id := gid
  , timestamp := ts
  , userRole := req.userRole
  , userName := req.userName
  , boardId := req.boardId
  , boardName := req.boardName
  , revision := req.revision
  , stage := req.stage
  , task := req.task
  , field := req.field
  , oldValue := req.oldValue
  , newValue := req.newValue }

/-- The row inserted by main.py `add_changelog`. -/
def newChangeRow (gid ts : String) (req : CreateChangeLogRequest) : ChangeLogRow :=
  { id := gid
  , timestamp := ts
  , user_role := req.userRole
  , user_name := req.userName
  , board_id := req.boardId
  , board_name := req.boardName
  , revision := req.revision
  , stage := req.stage
  , task := req.task
  , field := req.field
  , old_value := req.oldValue
  , new_value := req.newValue }

/-- main.py `add_changelog` (POST /api/changelog): unconditionally insert
one row built from the request plus the generated id `gid` and timestamp
`ts`, and return the entry; no check that `boardId` names a board. -/
def add_changelog (s : DBState) (gid ts : String) (req : CreateChangeLogRequest) :
    DBState × ChangeLogEntry :=
  ({ s with change_log := s.change_log ++ [newChangeRow gid ts req] },
   newChangeEntry gid ts req)

/-- main.py `list_users` (GET /api/users): names ordered ascending. -/
def list_users (s : DBState) : List String :=
  List.insertionSort (fun a b => a ≤ b) s.users

/-- The character set Python `str.strip()` removes (CPython
`Py_UNICODE_ISSPACE`): \t \n \v \f \r, the file/group/record/unit
separators \x1c-\x1f, the space, NEL \x85, NBSP \xa0, Ogham space mark
\x1680, the Unicode space separators \x2000-\x200a, the line and
paragraph separators \x2028/\x2029, narrow no-break space \x202f, medium
mathematical space \x205f and ideographic space \x3000. -/
def pyIsSpace (c : Char) : Bool :=
  (0x09 ≤ c.toNat && c.toNat ≤ 0x0d)
    || (0x1c ≤ c.toNat && c.toNat ≤ 0x1f)
    || c.toNat == 0x20 || c.toNat == 0x85 || c.toNat == 0xa0
    || c.toNat == 0x1680
    || (0x2000 ≤ c.toNat && c.toNat ≤ 0x200a)
    || c.toNat == 0x2028 || c.toNat == 0x2029
    || c.toNat == 0x202f || c.toNat == 0x205f || c.toNat == 0x3000

/-- Python `str.strip()` with no argument: drop every `pyIsSpace`
character from both ends (embedded on the underlying character list). -/
def pyStrip (s : String) : String :=
  ⟨(((s.data.dropWhile pyIsSpace).reverse.dropWhile pyIsSpace).reverse)⟩

/-- main.py `add_user` (POST /api/users): 400 when the name strips to
empty, `INSERT OR IGNORE` otherwise, return the sorted roster. -/
def add_user (s : DBState) (req : CreateUserRequest) :
    Except ApiError (DBState × List String) :=
  let name := pyStrip req.name
  if name = "" then .error (.badRequest "Name cannot be empty")
  else
    let users := if name ∈ s.users then s.users else s.users ++ [name]
    let s2 : DBState := { s with users := users }
    .ok (s2, list_users s2)

/-! ### Helper lemmas -/

theorem pyOrEmpty_eq (s : String) : pyOrEmpty s = s := by
  by_cases h : s = "" <;> simp [pyOrEmpty, h]

theorem pyBool_boolToInt (b : Bool) : pyBool (boolToInt b) = b := by
  cases b <;> rfl

theorem pyBool_zero : pyBool 0 = false := rfl

theorem pyBool_one : pyBool 1 = true := rfl

/-- `find?` commutes with a map whose function leaves the search predicate
unchanged (used for SQL `UPDATE ... WHERE id=?` row rewrites). -/
theorem find?_map_pred_stable {α : Type} (g : α → α) (p : α → Bool)
    (hp : ∀ r, p (g r) = p r) (l : List α) :
    (l.map g).find? p = (l.find? p).map g := by
  rw [List.find?_map]
  have hcongr : (p ∘ g) = p := funext hp
  rw [hcongr]

/-! ### C1: buildDefaultStages matches the fixed stage catalog -/

/-- A freshly built task: both approval flags false, no optional field
set. -/
def taskFreshB (t : Task) : Bool :=
  !t.designerApproved && !t.reviewerApproved
    && t.required == none && t.url == none && t.comments == none

/-- Pointwise comparison of one built stage against its catalog template:
same name, tasks present iff the template has tasks and carrying exactly
the template task names with all-fresh flags, subcategories likewise. -/
def stageMatchesCatalogB (p : Stage × StageTemplate) : Bool :=
  (p.1.name == p.2.name)
    && (p.1.tasks.map (List.map Task.name) == p.2.tasks)
    && (p.1.tasks.getD []).all taskFreshB
    && (p.1.subcategories.map (List.map Subcategory.name)
          == p.2.subcategories.map (List.map SubcatTemplate.name))
    && ((p.1.subcategories.getD []).map (fun sc => sc.tasks.map Task.name)
          == (p.2.subcategories.getD []).map SubcatTemplate.tasks)
    && (p.1.subcategories.getD []).all (fun sc =>
          sc.designerApproved == some false && sc.reviewerApproved == some false
            && sc.tasks.all taskFreshB)

/-- Claim C1: `build_default_stages` (a pure constant in the embedding,
hence trivially deterministic with no inputs) emits one Stage per catalog
template in catalog order, with the template's name, one all-unapproved
Task per template task name with no other optional field set, and one
Subcategory per template subcategory with both approval flags false and
its nested tasks built the same way; stage count and per-stage contents
match the catalog literally. -/
theorem build_default_stages_matches_catalog :
    build_default_stages.length = STAGE_TEMPLATES.length
      ∧ (build_default_stages.zip STAGE_TEMPLATES).all stageMatchesCatalogB = true :=
  ⟨rfl, by decide⟩

/-! ### C2: Create -/

/-- Everything claim C2 asserts about the result of one `create_board`
call: the returned board's fields, the head-stage scenario facts, and
that the board was persisted (a follow-up `get_board` finds it). -/
def CreateBoardPost (s : DBState) (gid ts : String) (req : CreateBoardRequest) : Prop :=
  (create_board s gid ts req).2.id = gid
  ∧ (create_board s gid ts req).2.id ≠ ""
  ∧ (create_board s gid ts req).2.createdAt = ts
  ∧ (create_board s gid ts req).2.arrivedDate = ""
  ∧ (create_board s gid ts req).2.isArrived = false
  ∧ (create_board s gid ts req).2.passFailStatus = none
  ∧ (create_board s gid ts req).2.isDeleted = some false
  ∧ (create_board s gid ts req).2.deletedAt = none
  ∧ (create_board s gid ts req).2.stages = build_default_stages
  ∧ (create_board s gid ts req).2.boardName = req.boardName
  ∧ (create_board s gid ts req).2.partNumber = req.partNumber
  ∧ (create_board s gid ts req).2.revision = req.revision
  ∧ (create_board s gid ts req).2.project = req.project
  ∧ (create_board s gid ts req).2.isNewRevision = req.isNewRevision
  ∧ (create_board s gid ts req).2.stages.head?.map Stage.name = some "Pre-Schematics"
  ∧ ((create_board s gid ts req).2.stages.head?.bind Stage.tasks).bind List.head?
      = some { name := "Requirements Available", designerApproved := false
             , reviewerApproved := false }
  ∧ get_board (create_board s gid ts req).1 gid = .ok (create_board s gid ts req).2

/-- Claim C2: for every store state (in particular one already holding a
board with the same partNumber+revision — no uniqueness constraint) and
every request, Create succeeds and returns a new Board with the generated
non-empty id, createdAt = now, arrivedDate = "", isArrived = false,
passFailStatus unset, isDeleted = false, deletedAt = null and
stages = buildDefaultStages(), whose first stage is "Pre-Schematics" with
first task {Requirements Available, false, false}.  The id freshness
hypothesis reflects `str(uuid4())`: never empty, never colliding with a
stored row id. -/
theorem create_board_spec (s : DBState) (gid ts : String) (req : CreateBoardRequest)
    (hgid : gid ≠ "") (hfresh : ∀ r ∈ s.boards, r.id ≠ gid) :
    CreateBoardPost s gid ts req := by
  refine ⟨rfl, hgid, rfl, rfl, rfl, rfl, rfl, rfl, rfl, rfl, rfl, rfl, rfl, rfl,
    ?_, ?_, ?_⟩
  · show build_default_stages.head?.map Stage.name = some "Pre-Schematics"
    decide
  · show (build_default_stages.head?.bind Stage.tasks).bind List.head?
      = some { name := "Requirements Available", designerApproved := false
             , reviewerApproved := false }
    decide
  · show get_board _ gid = _
    unfold get_board create_board
    rw [List.find?_append]
    have hnone : s.boards.find? (fun r => r.id == gid) = none := by
      rw [List.find?_eq_none]
      intro x hx
      simp only [beq_iff_eq]
      exact hfresh x hx
    rw [hnone]
    simp [row_to_board_dict, pyBool_zero, pyBool_boolToInt, pyOrEmpty_eq]

/-- Concrete instance of C2: the store already holds a board with
partNumber "PN-1" revision "A", and creating a duplicate succeeds. -/
def wBoardRow : BoardRow :=
  { id := "b1", board_name := "Alpha", part_number := "PN-1", revision := "A"
  , project := "X", is_new_revision := 0, arrived_date := "", is_arrived := 0
  , pass_fail_status := none, stages_json := []
  , created_at := "2024-01-01T00:00:00+00:00"
  , updated_at := "2024-01-01T00:00:00+00:00", is_deleted := 0, deleted_at := none }

def wState : DBState := { boards := [wBoardRow], change_log := [], users := [] }

def wCreateReq : CreateBoardRequest :=
  { boardName := "Alpha", partNumber := "PN-1", revision := "A", project := "X"
  , isNewRevision := false }

theorem create_board_spec_witness :
    ("b2" : String) ≠ "" ∧ CreateBoardPost wState "b2" "2024-01-02T00:00:00+00:00" wCreateReq :=
  ⟨by decide, create_board_spec wState "b2" "2024-01-02T00:00:00+00:00" wCreateReq
      (by decide) (by decide)⟩

/-! ### C4: Update rejects id mismatch and unknown ids -/

/-- Claim C4: an Update whose payload id differs from the path id is
rejected with the 400 "Board ID mismatch" error, and an Update addressing
an id with no stored row fails with the 404 "Board not found" error.  In
the state-passing embedding an error result carries no successor state,
so storage is untouched in both cases. -/
theorem update_board_reject_spec (s : DBState) (ts bid : String) (payload : PCBBoard) :
    (payload.id ≠ bid →
        update_board s ts bid payload = .error (.badRequest "Board ID mismatch"))
  ∧ (payload.id = bid → s.boards.find? (fun r => r.id == bid) = none →
        update_board s ts bid payload = .error (.notFound "Board not found")) := by
  constructor
  · intro h
    simp [update_board, h]
  · intro h hfind
    simp [update_board, h, hfind]

def wMismatchPayload : PCBBoard :=
  { id := "zzz", boardName := "Alpha", partNumber := "PN-1", revision := "A"
  , project := "X", createdAt := "2024-01-01T00:00:00+00:00", stages := [] }

theorem update_board_reject_spec_witness :
    update_board wState "t1" "b1" wMismatchPayload = .error (.badRequest "Board ID mismatch")
  ∧ update_board wState "t1" "zzz" wMismatchPayload = .error (.notFound "Board not found") :=
  ⟨(update_board_reject_spec wState "t1" "b1" wMismatchPayload).1 (by decide),
   (update_board_reject_spec wState "t1" "zzz" wMismatchPayload).2 (by decide) (by decide)⟩

/-! ### C5: SoftDelete -/

theorem softdel_map_pred_stable (ts bid : String) (x : BoardRow) :
    (((fun r => if r.id == bid then
        { r with is_deleted := 1, deleted_at := some ts, updated_at := ts }
      else r) x).id == bid) = (x.id == bid) := by
  by_cases hx : (x.id == bid) = true <;> simp [hx]

/-- After the soft-delete UPDATE ran, looking the id up again yields the
flagged version of the row that was found before. -/
theorem softDeletedBoards_find? (s : DBState) (ts bid : String) (r : BoardRow)
    (hfind : s.boards.find? (fun x => x.id == bid) = some r) :
    (softDeletedBoards s ts bid).boards.find? (fun x => x.id == bid)
      = some { r with is_deleted := 1, deleted_at := some ts, updated_at := ts } := by
  show (s.boards.map _).find? _ = _
  rw [find?_map_pred_stable _ _ (softdel_map_pred_stable ts bid), hfind]
  have hrid : r.id = bid := by simpa using List.find?_some hfind
  simp [hrid]

/-- Reading back a soft-deleted row changes only the two lifecycle fields
of the board view. -/
theorem row_to_board_dict_softdel (ts : String) (r : BoardRow) :
    row_to_board_dict { r with is_deleted := 1, deleted_at := some ts, updated_at := ts }
      = { row_to_board_dict r with isDeleted := some true, deletedAt := some ts } := by
  simp [row_to_board_dict, pyBool_one]

/-- One successful soft-delete call: the UPDATE state is committed and the
re-read row is returned. -/
theorem soft_delete_board_ok (s : DBState) (ts bid : String) (r : BoardRow)
    (hfind : s.boards.find? (fun x => x.id == bid) = some r) :
    soft_delete_board s ts bid = .ok (softDeletedBoards s ts bid,
      { row_to_board_dict r with isDeleted := some true, deletedAt := some ts }) := by
  simp only [soft_delete_board, hfind]
  rw [softDeletedBoards_find? s ts bid r hfind]
  show Except.ok (softDeletedBoards s ts bid, row_to_board_dict
      { r with is_deleted := 1, deleted_at := some ts, updated_at := ts }) = _
  rw [row_to_board_dict_softdel]

/-- Claim C5: SoftDelete on an existing id sets isDeleted=true,
deletedAt=now and updatedAt=now on the stored row and returns the updated
board; it 404s when the id is absent; and a second SoftDelete succeeds
again with isDeleted=true, refreshing only deleted_at/updated_at (the
returned board differs from the first call's only in deletedAt, the row
only in deleted_at/updated_at). -/
theorem soft_delete_board_spec (s : DBState) (ts ts2 bid : String) :
    (s.boards.find? (fun x => x.id == bid) = none →
        soft_delete_board s ts bid = .error (.notFound "Board not found"))
  ∧ ∀ r, s.boards.find? (fun x => x.id == bid) = some r →
      soft_delete_board s ts bid = .ok (softDeletedBoards s ts bid,
        { row_to_board_dict r with isDeleted := some true, deletedAt := some ts })
      ∧ (softDeletedBoards s ts bid).boards.find? (fun x => x.id == bid)
          = some { r with is_deleted := 1, deleted_at := some ts, updated_at := ts }
      ∧ soft_delete_board (softDeletedBoards s ts bid) ts2 bid
          = .ok (softDeletedBoards (softDeletedBoards s ts bid) ts2 bid,
            { row_to_board_dict r with isDeleted := some true, deletedAt := some ts2 })
      ∧ (softDeletedBoards (softDeletedBoards s ts bid) ts2 bid).boards.find?
            (fun x => x.id == bid)
          = some { r with is_deleted := 1, deleted_at := some ts2, updated_at := ts2 } := by
  constructor
  · intro h
    simp [soft_delete_board, h]
  · intro r hfind
    have hf1 := softDeletedBoards_find? s ts bid r hfind
    have h2 := soft_delete_board_ok (softDeletedBoards s ts bid) ts2 bid _ hf1
    have hf2 := softDeletedBoards_find? (softDeletedBoards s ts bid) ts2 bid _ hf1
    exact ⟨soft_delete_board_ok s ts bid r hfind, hf1, h2, hf2⟩

theorem soft_delete_board_spec_witness :
    soft_delete_board wState "d1" "b1" = .ok (softDeletedBoards wState "d1" "b1",
      { row_to_board_dict wBoardRow with isDeleted := some true, deletedAt := some "d1" })
  ∧ soft_delete_board (softDeletedBoards wState "d1" "b1") "d2" "b1"
      = .ok (softDeletedBoards (softDeletedBoards wState "d1" "b1") "d2" "b1",
        { row_to_board_dict wBoardRow with
            isDeleted := some true, deletedAt := some "d2" }) := by
  have h := (soft_delete_board_spec wState "d1" "d2" "b1").2 wBoardRow (by decide)
  exact ⟨h.1, h.2.2.1⟩

/-! ### C6: List boards -/

/-- Claim C6: List(includeDeleted=false) never returns a board with
isDeleted=true (every returned board has isDeleted=false); with
includeDeleted=true the result is exactly all stored boards (as a
permutation, i.e. no pagination); with false it is exactly the
non-deleted rows; and either way the output is ordered by createdAt
descending. -/
theorem list_boards_spec (s : DBState) :
    (∀ b ∈ list_boards s false, b.isDeleted = some false)
  ∧ List.Perm (list_boards s true) (s.boards.map row_to_board_dict)
  ∧ List.Perm (list_boards s false)
      ((s.boards.filter (fun x => x.is_deleted == 0)).map row_to_board_dict)
  ∧ (∀ inc : Bool, (list_boards s inc).Pairwise
        (fun a b : PCBBoard => b.createdAt ≤ a.createdAt)) := by
  refine ⟨?_, ?_, ?_, ?_⟩
  · intro b hb
    have hb' : b ∈ (List.insertionSort rowDescCreated
        (s.boards.filter (fun x => x.is_deleted == 0))).map row_to_board_dict := hb
    obtain ⟨x, hx, rfl⟩ := List.mem_map.mp hb'
    have hx2 : x ∈ s.boards.filter (fun y => y.is_deleted == 0) :=
      ((List.perm_insertionSort rowDescCreated _).mem_iff).mp hx
    have hx3 := (List.mem_filter.mp hx2).2
    have hx4 : x.is_deleted = 0 := by simpa using hx3
    show some (pyBool x.is_deleted) = some false
    rw [hx4, pyBool_zero]
  · exact (List.perm_insertionSort rowDescCreated s.boards).map row_to_board_dict
  · exact (List.perm_insertionSort rowDescCreated _).map row_to_board_dict
  · intro inc
    cases inc with
    | false =>
        exact List.Pairwise.map row_to_board_dict (fun a b h => h)
          (List.sorted_insertionSort rowDescCreated
            (s.boards.filter (fun x => x.is_deleted == 0)))
    | true =>
        exact List.Pairwise.map row_to_board_dict (fun a b h => h)
          (List.sorted_insertionSort rowDescCreated s.boards)

theorem list_boards_spec_witness :
    (row_to_board_dict wBoardRow).isDeleted = some false
  ∧ List.Perm (list_boards wState true) (wState.boards.map row_to_board_dict)
  ∧ (list_boards wState false).Pairwise
      (fun a b : PCBBoard => b.createdAt ≤ a.createdAt) :=
  ⟨(list_boards_spec wState).1 (row_to_board_dict wBoardRow) (by decide),
   (list_boards_spec wState).2.1,
   (list_boards_spec wState).2.2.2 false⟩

/-! ### C7: HardDelete -/

/-- Claim C7: HardDelete on an existing id removes the board row and every
change-log row referencing that id, irreversibly: afterwards no board in
List(includeDeleted=true) carries that id and the change-log List
filtered to that id is empty; rows for other ids are untouched; an absent
id yields 404.  The `bid ≠ ""` hypothesis reflects that stored board ids
are `str(uuid4())` values, never empty (the changelog List treats "" as
"no filter" by Python truthiness). -/
theorem permanent_delete_board_spec (s : DBState) (bid : String) :
    (s.boards.find? (fun x => x.id == bid) = none →
        permanent_delete_board s bid = .error (.notFound "Board not found"))
  ∧ ∀ r, s.boards.find? (fun x => x.id == bid) = some r → bid ≠ "" →
      permanent_delete_board s bid = .ok (hardDeletedState s bid)
      ∧ (∀ b ∈ list_boards (hardDeletedState s bid) true, b.id ≠ bid)
      ∧ get_changelog (hardDeletedState s bid) (some bid) = []
      ∧ (∀ x ∈ s.boards, x.id ≠ bid → x ∈ (hardDeletedState s bid).boards)
      ∧ (∀ e ∈ s.change_log, e.board_id ≠ bid →
            e ∈ (hardDeletedState s bid).change_log) := by
  constructor
  · intro h
    simp [permanent_delete_board, h]
  · intro r hfind hbid
    refine ⟨by simp [permanent_delete_board, hfind], ?_, ?_, ?_, ?_⟩
    · intro b hb
      have hb' : b ∈ (List.insertionSort rowDescCreated
          (s.boards.filter (fun x => x.id != bid))).map row_to_board_dict := hb
      obtain ⟨x, hx, rfl⟩ := List.mem_map.mp hb'
      have hx2 : x ∈ s.boards.filter (fun y => y.id != bid) :=
        ((List.perm_insertionSort rowDescCreated _).mem_iff).mp hx
      have hx3 := (List.mem_filter.mp hx2).2
      exact bne_iff_ne.mp hx3
    · have hfilters : (hardDeletedState s bid).change_log.filter
          (fun e => e.board_id == bid) = [] := by
        show (s.change_log.filter (fun e => e.board_id != bid)).filter
            (fun e => e.board_id == bid) = []
        rw [List.filter_filter]
        apply List.filter_eq_nil_iff.mpr
        intro e _
        simp [bne]
      have hshape : get_changelog (hardDeletedState s bid) (some bid)
          = (if bid = "" then
               List.insertionSort changeDescTimestamp (hardDeletedState s bid).change_log
             else List.insertionSort changeDescTimestamp
               ((hardDeletedState s bid).change_log.filter
                 (fun e => e.board_id == bid))).map row_to_changelog_dict := rfl
      rw [hshape, if_neg hbid, hfilters]
      rfl
    · intro x hx hne
      exact List.mem_filter.mpr ⟨hx, bne_iff_ne.mpr hne⟩
    · intro e he hne
      exact List.mem_filter.mpr ⟨he, bne_iff_ne.mpr hne⟩

def wChangeRow1 : ChangeLogRow :=
  { id := "c1", timestamp := "2024-01-05T00:00:00+00:00", user_role := "Designer"
  , user_name := some "Bob", board_id := "b1", board_name := "Alpha", revision := "A"
  , stage := "Layout", task := "Wiring", field := "designerApproved"
  , old_value := "false", new_value := "true" }

def wChangeRow2 : ChangeLogRow :=
  { id := "c2", timestamp := "2024-01-06T00:00:00+00:00", user_role := "Reviewer"
  , user_name := none, board_id := "b2", board_name := "Other", revision := "B"
  , stage := "Order", task := "PCB Ordered", field := "reviewerApproved"
  , old_value := "false", new_value := "true" }

def wStateCL : DBState :=
  { boards := [wBoardRow], change_log := [wChangeRow1, wChangeRow2], users := [] }

theorem permanent_delete_board_spec_witness :
    permanent_delete_board wStateCL "b1" = .ok (hardDeletedState wStateCL "b1")
  ∧ get_changelog (hardDeletedState wStateCL "b1") (some "b1") = []
  ∧ wChangeRow2 ∈ (hardDeletedState wStateCL "b1").change_log := by
  have h := (permanent_delete_board_spec wStateCL "b1").2 wBoardRow
    (by decide) (by decide)
  exact ⟨h.1, h.2.2.1, h.2.2.2.2 wChangeRow2 (by decide) (by decide)⟩

/-! ### C8: changelog Append -/

/-- Everything claim C8 asserts about one `add_changelog` call: the entry
is built from the request with the generated id and current timestamp,
the row is persisted, the entry is retrievable through the changelog List
filtered to its boardId, and every changelog List result is ordered by
timestamp descending. -/
def AppendPost (s : DBState) (gid ts : String) (req : CreateChangeLogRequest) : Prop :=
  (add_changelog s gid ts req).2 = newChangeEntry gid ts req
  ∧ (add_changelog s gid ts req).1.change_log
      = s.change_log ++ [newChangeRow gid ts req]
  ∧ (newChangeEntry gid ts req).id = gid
  ∧ (newChangeEntry gid ts req).timestamp = ts
  ∧ (newChangeEntry gid ts req).boardId = req.boardId
  ∧ newChangeEntry gid ts req
      ∈ get_changelog (add_changelog s gid ts req).1 (some req.boardId)
  ∧ (∀ q, (get_changelog (add_changelog s gid ts req).1 q).Pairwise
        (fun a b : ChangeLogEntry => b.timestamp ≤ a.timestamp))

/-- Shape of one changelog query on any state: the match on the optional
boardId reduces to an if on emptiness. -/
theorem get_changelog_some_shape (s : DBState) (bid : String) :
    get_changelog s (some bid)
      = (if bid = "" then List.insertionSort changeDescTimestamp s.change_log
         else List.insertionSort changeDescTimestamp
           (s.change_log.filter (fun e => e.board_id == bid))).map
        row_to_changelog_dict := rfl

/-- Every changelog List result is sorted by timestamp descending. -/
theorem get_changelog_sorted (s : DBState) (q : Option String) :
    (get_changelog s q).Pairwise
      (fun a b : ChangeLogEntry => b.timestamp ≤ a.timestamp) := by
  have hsorted : ∀ l : List ChangeLogRow,
      ((List.insertionSort changeDescTimestamp l).map row_to_changelog_dict).Pairwise
        (fun a b : ChangeLogEntry => b.timestamp ≤ a.timestamp) := by
    intro l
    exact List.Pairwise.map row_to_changelog_dict (fun a b h => h)
      (List.sorted_insertionSort changeDescTimestamp l)
  cases q with
  | none => exact hsorted s.change_log
  | some bid =>
      rw [get_changelog_some_shape]
      by_cases hb : bid = ""
      · rw [if_pos hb]
        exact hsorted s.change_log
      · rw [if_neg hb]
        exact hsorted _

/-- Claim C8: Append always succeeds (it is a total function of the store,
with no referential check on boardId — the hypothesis states that no
stored board carries the request's boardId), persists one entry built
from the request with the generated id and timestamp, and the entry is
retrievable via the changelog List filtered to that boardId, whose
results are ordered by timestamp descending. -/
theorem add_changelog_spec (s : DBState) (gid ts : String)
    (req : CreateChangeLogRequest)
    (hno : ∀ x ∈ s.boards, x.id ≠ req.boardId) :
    AppendPost s gid ts req := by
  refine ⟨rfl, rfl, rfl, rfl, rfl, ?_, fun q => get_changelog_sorted _ q⟩
  rw [get_changelog_some_shape]
  by_cases hb : req.boardId = ""
  · rw [if_pos hb]
    refine List.mem_map.mpr ⟨newChangeRow gid ts req, ?_, rfl⟩
    apply (List.perm_insertionSort changeDescTimestamp _).mem_iff.mpr
    exact List.mem_append_right _ (List.mem_singleton_self _)
  · rw [if_neg hb]
    refine List.mem_map.mpr ⟨newChangeRow gid ts req, ?_, rfl⟩
    apply (List.perm_insertionSort changeDescTimestamp _).mem_iff.mpr
    apply List.mem_filter.mpr
    refine ⟨List.mem_append_right _ (List.mem_singleton_self _), ?_⟩
    simp [newChangeRow]

def wAppendReq : CreateChangeLogRequest :=
  { userRole := "Designer", userName := some "Bob", boardId := "ghost-id"
  , boardName := "Ghost", revision := "A", stage := "Layout", task := "Wiring"
  , field := "designerApproved", oldValue := "false", newValue := "true" }

theorem add_changelog_spec_witness :
    AppendPost wState "c9" "2024-01-03T00:00:00+00:00" wAppendReq :=
  add_changelog_spec wState "c9" "2024-01-03T00:00:00+00:00" wAppendReq (by decide)

/-! ### C9: user Add -/

/-- Everything claim C9 asserts about a successful Add: the trimmed name
is stored, the returned roster is the sorted user table, a duplicate add
leaves the roster unchanged, and re-adding is a no-op. -/
def AddUserPost (s : DBState) (req : CreateUserRequest) : Prop :=
  ∃ s2 roster, add_user s req = .ok (s2, roster)
    ∧ pyStrip req.name ∈ s2.users
    ∧ roster = list_users s2
    ∧ roster.Pairwise (fun a b => a ≤ b)
    ∧ (pyStrip req.name ∈ s.users → s2.users = s.users)
    ∧ (∀ s3 roster2, add_user s2 req = .ok (s3, roster2) →
         s3.users = s2.users ∧ roster2 = roster)

/-- Adding a name already on the roster is a no-op that returns the
sorted roster of the unchanged state. -/
theorem add_user_mem_noop (s : DBState) (req : CreateUserRequest)
    (h : pyStrip req.name ≠ "") (hmem : pyStrip req.name ∈ s.users) :
    add_user s req = .ok (s, list_users s) := by
  simp [add_user, h, hmem]

/-- Claim C9: Add(name) fails with the 400 validation error exactly when
the name strips to the empty string; otherwise it stores the stripped
name, is idempotent (a duplicate add leaves the roster unchanged and is
not an error), and returns the roster sorted ascending. -/
theorem add_user_spec (s : DBState) (req : CreateUserRequest) :
    (pyStrip req.name = "" →
        add_user s req = .error (.badRequest "Name cannot be empty"))
  ∧ (pyStrip req.name ≠ "" → AddUserPost s req) := by
  constructor
  · intro h
    simp [add_user, h]
  · intro h
    have hcall : add_user s req = .ok
        ({ s with users := if pyStrip req.name ∈ s.users then s.users
                           else s.users ++ [pyStrip req.name] },
         list_users { s with users := if pyStrip req.name ∈ s.users then s.users
                           else s.users ++ [pyStrip req.name] }) := by
      simp [add_user, h]
    refine ⟨_, _, hcall, ?_, rfl, ?_, ?_, ?_⟩
    · by_cases hmem : pyStrip req.name ∈ s.users <;> simp [hmem]
    · exact List.sorted_insertionSort _ _
    · intro hmem
      simp [hmem]
    · intro s3 roster2 hcall2
      have hmem2 : pyStrip req.name ∈
          ({ s with users := if pyStrip req.name ∈ s.users then s.users
                             else s.users ++ [pyStrip req.name] } : DBState).users := by
        by_cases hmem : pyStrip req.name ∈ s.users <;> simp [hmem]
      rw [add_user_mem_noop _ _ h hmem2] at hcall2
      cases hcall2
      exact ⟨rfl, rfl⟩

def wBobReq : CreateUserRequest := { name := " Bob " }

/-! ### C3 and C10: Update semantics -/

theorem update_map_pred_stable (ts bid : String) (payload : PCBBoard) (x : BoardRow) :
    (((fun r => if r.id == bid then updateRowFromPayload ts payload r else r) x).id == bid)
      = (x.id == bid) := by
  by_cases hx : (x.id == bid) = true <;> simp [hx, updateRowFromPayload]

/-- After the UPDATE ran, looking the id up again yields the overwritten
version of the row that was found before. -/
theorem updatedBoards_find? (s : DBState) (ts bid : String) (payload : PCBBoard)
    (r : BoardRow) (hfind : s.boards.find? (fun x => x.id == bid) = some r) :
    (updatedBoards s ts bid payload).boards.find? (fun x => x.id == bid)
      = some (updateRowFromPayload ts payload r) := by
  show (s.boards.map _).find? _ = _
  rw [find?_map_pred_stable _ _ (update_map_pred_stable ts bid payload), hfind]
  have hrid : r.id = bid := by simpa using List.find?_some hfind
  simp [hrid]

/-- Reading back an overwritten row yields the payload with `id` and
`createdAt` taken from the stored row. -/
theorem row_to_board_dict_update (ts : String) (payload : PCBBoard) (r : BoardRow)
    (d : Bool) (hdel : payload.isDeleted = some d) :
    row_to_board_dict (updateRowFromPayload ts payload r)
      = { payload with id := r.id, createdAt := r.created_at } := by
  simp [row_to_board_dict, updateRowFromPayload, pyBool_boolToInt, pyOrEmpty_eq,
    pyOrFalse, hdel]

/-- Claim C3: a successful Update replaces every mutable stored field with
the payload's values (the whole row is overwritten except `id` and
`created_at`, and `updated_at` is set to now inside
`updateRowFromPayload`), and a following Get returns exactly the payload
with `id` and `createdAt` pinned to their pre-update stored values.  The
hypothesis `payload.isDeleted = some d` says the full payload carries the
`isDeleted` field explicitly (it is `Optional` in the pydantic model). -/
theorem update_then_get (s : DBState) (ts bid : String) (payload : PCBBoard)
    (r : BoardRow) (d : Bool)
    (hid : payload.id = bid)
    (hfind : s.boards.find? (fun x => x.id == bid) = some r)
    (hdel : payload.isDeleted = some d) :
    update_board s ts bid payload = .ok (updatedBoards s ts bid payload, payload)
  ∧ get_board (updatedBoards s ts bid payload) bid
      = .ok { payload with id := bid, createdAt := r.created_at } := by
  have hr : (r.id == bid) = true := by simpa using List.find?_some hfind
  have hrid : r.id = bid := by simpa [beq_iff_eq] using hr
  have hcall : get_board (updatedBoards s ts bid payload) bid
      = .ok (row_to_board_dict (updateRowFromPayload ts payload r)) := by
    unfold get_board
    rw [updatedBoards_find? s ts bid payload r hfind]
  constructor
  · simp [update_board, hid, hfind]
  · rw [hcall, row_to_board_dict_update ts payload r d hdel, hrid]

def wUpdatePayload : PCBBoard :=
  { id := "b1", boardName := "Beta", partNumber := "PN-2", revision := "B"
  , project := "Y", arrivedDate := "2024-02-03", isArrived := true
  , passFailStatus := some "Pass", isNewRevision := true
  , stages := [ { name := "OnlyStage"
                , tasks := some [ { name := "T1", designerApproved := true
                                  , reviewerApproved := false } ] } ]
  , createdAt := "1999-01-01T00:00:00+00:00", isDeleted := some false
  , deletedAt := none }

theorem update_then_get_witness :
    update_board wState "t2" "b1" wUpdatePayload
        = .ok (updatedBoards wState "t2" "b1" wUpdatePayload, wUpdatePayload)
  ∧ get_board (updatedBoards wState "t2" "b1" wUpdatePayload) "b1"
      = .ok { wUpdatePayload with id := "b1", createdAt := wBoardRow.created_at } :=
  update_then_get wState "t2" "b1" wUpdatePayload wBoardRow false
    (by decide) (by decide) (by decide)

/-- Claim C10: a successful Update returns the payload object itself, not
a re-read of stored state: the response's `createdAt` is the payload's,
while the stored row keeps its old `created_at`, which is what a
following Get reports — so the Update response disagrees with an
immediately following Get whenever the payload claimed a different
`createdAt`. -/
theorem update_response_is_payload (s : DBState) (ts bid : String) (payload : PCBBoard)
    (r : BoardRow)
    (hid : payload.id = bid)
    (hfind : s.boards.find? (fun x => x.id == bid) = some r) :
    update_board s ts bid payload = .ok (updatedBoards s ts bid payload, payload)
  ∧ (updatedBoards s ts bid payload).boards.find? (fun x => x.id == bid)
      = some (updateRowFromPayload ts payload r)
  ∧ (updateRowFromPayload ts payload r).created_at = r.created_at
  ∧ (∀ g, get_board (updatedBoards s ts bid payload) bid = .ok g →
        g.createdAt = r.created_at)
  ∧ (payload.createdAt ≠ r.created_at →
       ∀ g, get_board (updatedBoards s ts bid payload) bid = .ok g →
         g.createdAt ≠ payload.createdAt) := by
  have hcall : get_board (updatedBoards s ts bid payload) bid
      = .ok (row_to_board_dict (updateRowFromPayload ts payload r)) := by
    unfold get_board
    rw [updatedBoards_find? s ts bid payload r hfind]
  have hget : ∀ g, get_board (updatedBoards s ts bid payload) bid = .ok g →
      g.createdAt = r.created_at := by
    intro g hg
    rw [hcall] at hg
    cases hg
    rfl
  refine ⟨by simp [update_board, hid, hfind],
    updatedBoards_find? s ts bid payload r hfind, rfl, hget, ?_⟩
  intro hne g hg
  rw [hget g hg]
  exact fun h => hne h.symm

theorem update_response_is_payload_witness :
    update_board wState "t2" "b1" wUpdatePayload
        = .ok (updatedBoards wState "t2" "b1" wUpdatePayload, wUpdatePayload)
  ∧ (updateRowFromPayload "t2" wUpdatePayload wBoardRow).created_at
      = wBoardRow.created_at := by
  have h := update_response_is_payload wState "t2" "b1" wUpdatePayload wBoardRow
    (by decide) (by decide)
  exact ⟨h.1, h.2.2.1⟩

theorem add_user_spec_witness :
    pyStrip (" Bob ") = "Bob"
  ∧ pyStrip ("  ") = ""
  ∧ pyStrip ("\x0b") = ""
  ∧ pyStrip (" \x0cBob\xa0 ") = "Bob"
  ∧ add_user wState { name := "  " } = .error (.badRequest "Name cannot be empty")
  ∧ add_user wState { name := "\x0b" } = .error (.badRequest "Name cannot be empty")
  ∧ AddUserPost wState wBobReq :=
  ⟨by decide, by decide, by decide, by decide,
   (add_user_spec wState { name := "  " }).1 (by decide),
   (add_user_spec wState { name := "\x0b" }).1 (by decide),
   (add_user_spec wState wBobReq).2 (by decide)⟩

end PCBTrack
